import Mathlib

/-!
Verification of the Matchmaking & Session Coordination Core of the open-chat
repository. The definitions below are a shallow embedding of the zustand chat
store (`useChatStore`): the pairing queue and atomic-claim matcher
(`findMatch` / `attemptMatch`), the session state machine (`handleMatch`,
`disconnect`, `reset`), the messaging relay handlers (`sendMessage`,
the `read_receipt` handler, `markMessageAsRead`) and the skip rate limiter.

Impure ingredients of the source are made explicit parameters:
`Date.now()` becomes a `now : Nat` argument, generated ids (`generateRoomId`,
message ids, queue row ids) become string arguments, `setTimeout` callbacks
become explicit `Timer` values, and network / database side effects become an
explicit `Effect` list together with `applyEffect` giving the effect of each
database operation on the shared store. The embedding models the non-demo
deployment (`isDemoMode = false`); concurrent interference from other clients
is modelled by an arbitrary state transformer (for the client state machine)
or by an external claim on the shared queue (for the matcher race).
-/

namespace OpenChat

/-- Connection status of a participant, from types/chat.ts. -/
inductive ConnectionStatus where
  | idle
  | searching
  | connected
  | disconnected
  deriving DecidableEq, Repr

/-- Local sender label of a message, "me" or "stranger". -/
inductive Sender where
  | me
  | stranger
  deriving DecidableEq, Repr

/-- Delivery status of an own message, from types/chat.ts. -/
inductive MessageStatus where
  | sending
  | sent
  | read
  deriving DecidableEq, Repr

/-- The ReplyTarget record kept in `replyingTo` (id, text, sender label). -/
structure ReplyTarget where
  id : String
  text : String
  sender : Sender
  deriving DecidableEq, Repr

/-- A chat message, from types/chat.ts (`status` and `replyTo` optional). -/
structure Message where
  id : String
  text : String
  sender : Sender
  timestamp : Nat
  status : Option MessageStatus := none
  replyTo : Option ReplyTarget := none
  deriving DecidableEq, Repr

/-- The client-side store state of `useChatStore` (channel references are
modelled by the channel's name). -/
structure ClientState where
  status : ConnectionStatus
  messages : List Message
  roomId : Option String
  partnerId : Option String
  userId : String
  isTyping : Bool
  strangerTyping : Bool
  interests : List String
  skipCount : Nat
  skipCooldownUntil : Option Nat
  replyingTo : Option ReplyTarget
  roomChannel : Option String
  matchChannel : Option String
  deriving DecidableEq, Repr

/-- The embedding models the non-demo deployment (a real store backend). -/
def isDemoMode : Bool := false

/-- BLOCKED_WORDS from the store module (intentionally minimal). -/
def BLOCKED_WORDS : List String := ["spam"]

/-- Lower-casing of a string, character by character (`toLowerCase`),
expressed on the character list. -/
def toLowerStr (s : String) : List Char :=
  s.data.map Char.toLower

/-- Whitespace trimming at both ends (`trim`), expressed on the character
list. -/
def trimStr (s : String) : String :=
  ⟨((s.data.dropWhile Char.isWhitespace).reverse.dropWhile Char.isWhitespace).reverse⟩

/-- containsProfanity: case-insensitive substring check against
BLOCKED_WORDS. -/
def containsProfanity (text : String) : Bool :=
  BLOCKED_WORDS.any (fun word =>
    decide (List.IsInfix (toLowerStr word) (toLowerStr text)))

/-- A row of the shared `waiting_queue` table (QueueEntry in types/chat.ts). -/
structure QueueRow where
  id : String
  user_id : String
  socket_channel_id : String
  interests : List String
  created_at : Nat
  deriving DecidableEq, Repr

/-- A row of the shared `active_rooms` table. -/
structure RoomRow where
  room_id : String
  user1_id : String
  user2_id : String
  ended_at : Option Nat
  deriving DecidableEq, Repr

/-- The shared transactional store: waiting queue plus active rooms. -/
structure DB where
  waiting_queue : List QueueRow
  active_rooms : List RoomRow
  deriving DecidableEq, Repr

/-- The conditional delete-and-return by entry id
(`.delete().eq("id", eid).select()`): removes every row whose id is `eid`
and returns the deleted rows. -/
def claimById (db : DB) (eid : String) : DB × List QueueRow :=
  ({ db with waiting_queue := db.waiting_queue.filter (fun r => !(r.id == eid)) },
   db.waiting_queue.filter (fun r => r.id == eid))

/-- A competing matcher winning the race on entry `eid`: its successful
conditional delete removes the row from the shared queue. -/
def externalClaim (db : DB) (eid : String) : DB :=
  (claimById db eid).1

/-- `n` matchers racing serially on the same entry id against the shared
store: each performs the conditional delete-and-return; `true` records a
successful claim (at least one row deleted). -/
def claimRace (db : DB) (eid : String) : Nat → List Bool
  | 0 => []
  | n + 1 =>
    let r := claimById db eid
    (!r.2.isEmpty) :: claimRace r.1 eid n

/-- Postgres `overlaps` on interest arrays: some common element. -/
def interestsOverlap (a b : List String) : Bool :=
  a.any (fun x => b.contains x)

/-- The queue query of findMatch step 1: oldest row (by `created_at`,
ascending) whose user differs from the caller, filtered by interest overlap
only when the caller supplied interests. -/
def queryOldest (db : DB) (uid : String) (interests : List String) : Option QueueRow :=
  (db.waiting_queue.filter
      (fun r => !(r.user_id == uid)
        && (interests.isEmpty || interestsOverlap r.interests interests))).foldl
    (fun best r =>
      match best with
      | none => some r
      | some b => if r.created_at < b.created_at then some r else some b)
    none

/-- attemptMatch from findMatch: atomically delete the candidate from the
queue; on zero rows deleted report failure (partner already claimed), on
success insert the active_rooms record pairing the caller with the
claimed user. -/
def attemptMatch (db : DB) (uid : String) (rid : String) (partner : QueueRow) :
    DB × Bool :=
  let r := claimById db partner.id
  if r.2.isEmpty then
    (r.1, false)
  else
    ({ r.1 with active_rooms :=
        r.1.active_rooms ++ [⟨rid, uid, partner.user_id, none⟩] }, true)

/-- Outcome of the synchronous matching phase of findMatch. -/
inductive MatchOutcome where
  | matched (roomId : String) (partnerId : String)
  | queued
  deriving DecidableEq, Repr

/-- Result of the matching phase: the store afterwards, the outcome, and the
list of entry ids on which a claim was attempted. -/
structure FMResult where
  db : DB
  outcome : MatchOutcome
  attempts : List String
  deriving DecidableEq, Repr

/-- Step 2 of findMatch: insert a fresh WaitingEntry for the caller (row id
and creation time are assigned by the store and passed as `qid`, `qt`). -/
def joinQueue (db : DB) (uid chan qid : String) (qt : Nat)
    (interests : List String) (atts : List String) : FMResult :=
  ⟨{ db with waiting_queue := db.waiting_queue ++ [⟨qid, uid, chan, interests, qt⟩] },
   .queued, atts⟩

/-- After a failed (or impossible) first claim: when the caller supplied
interests, query once more ignoring interests and attempt at most one more
claim; otherwise (or when that claim also fails) join the queue.
`steal2` models a competing matcher claiming the retry candidate between the
query and the conditional delete. -/
def retryOrQueue (db : DB) (uid : String) (interests : List String)
    (rid2 chan qid : String) (qt : Nat) (steal2 : Bool) (atts : List String) :
    FMResult :=
  if interests.isEmpty then
    joinQueue db uid chan qid qt interests atts
  else
    match queryOldest db uid [] with
    | none => joinQueue db uid chan qid qt interests atts
    | some p2 =>
      let dbB := if steal2 then externalClaim db p2.id else db
      let r2 := attemptMatch dbB uid rid2 p2
      if r2.2 then
        ⟨r2.1, .matched rid2 p2.user_id, atts ++ [p2.id]⟩
      else
        joinQueue r2.1 uid chan qid qt interests (atts ++ [p2.id])

/-- The synchronous matching phase of findMatch (steps 1-2 plus queue join):
query the oldest compatible waiter, attempt the atomic claim, retry at most
once against the ignore-interests pool, else insert a WaitingEntry.
`steal1`/`steal2` model a competing matcher claiming the candidate between
the caller's query and its conditional delete. -/
def findMatchCore (db : DB) (uid : String) (interests : List String)
    (rid1 rid2 chan qid : String) (qt : Nat) (steal1 steal2 : Bool) : FMResult :=
  match queryOldest db uid interests with
  | some p =>
    let dbA := if steal1 then externalClaim db p.id else db
    let r1 := attemptMatch dbA uid rid1 p
    if r1.2 then
      ⟨r1.1, .matched rid1 p.user_id, [p.id]⟩
    else
      retryOrQueue r1.1 uid interests rid2 chan qid qt steal2 [p.id]
  | none => retryOrQueue db uid interests rid2 chan qid qt steal2 []

lemma claimById_no_entry_left (db : DB) (eid : String) :
    ((claimById db eid).1).waiting_queue.filter (fun r => r.id == eid) = [] := by
  simp only [claimById, List.filter_filter]
  apply List.filter_eq_nil_iff.mpr
  intro a _
  simp

lemma claimById_of_absent (db : DB) (eid : String)
    (h : db.waiting_queue.filter (fun r => r.id == eid) = []) :
    claimById db eid = (db, []) := by
  have hall : ∀ r ∈ db.waiting_queue, ¬ (r.id == eid) = true :=
    List.filter_eq_nil_iff.mp h
  simp only [claimById, h]
  congr 1
  have : db.waiting_queue.filter (fun r => !(r.id == eid)) = db.waiting_queue := by
    apply List.filter_eq_self.mpr
    intro a ha
    simpa using hall a ha
  simp [this]

lemma claimRace_all_false (db : DB) (eid : String)
    (h : db.waiting_queue.filter (fun r => r.id == eid) = []) :
    ∀ n, claimRace db eid n = List.replicate n false := by
  intro n
  induction n generalizing db with
  | zero => rfl
  | succ n ih =>
    simp only [claimRace, claimById_of_absent db eid h]
    simp only [List.replicate_succ, List.cons.injEq]
    constructor
    · simp
    · exact ih db h

lemma claimRace_count_le_one (db : DB) (eid : String) (n : Nat) :
    (claimRace db eid n).count true ≤ 1 := by
  cases n with
  | zero => simp [claimRace]
  | succ n =>
    simp only [claimRace]
    have htail :
        claimRace (claimById db eid).1 eid n = List.replicate n false :=
      claimRace_all_false _ _ (claimById_no_entry_left db eid) n
    rw [htail]
    rw [List.count_cons]
    have : (List.replicate n false).count true = 0 := by
      simp [List.count_replicate]
    rw [this]
    split <;> simp

lemma attemptMatch_stolen (db : DB) (uid rid : String) (p : QueueRow) :
    attemptMatch (externalClaim db p.id) uid rid p = (externalClaim db p.id, false) := by
  have h := claimById_no_entry_left db p.id
  simp only [attemptMatch, externalClaim, claimById_of_absent _ _ h]
  simp

lemma externalClaim_rooms (db : DB) (eid : String) :
    (externalClaim db eid).active_rooms = db.active_rooms := rfl

lemma retryOrQueue_stolen (db : DB) (uid : String) (interests : List String)
    (rid2 chan qid : String) (qt : Nat) (atts : List String) :
    (retryOrQueue db uid interests rid2 chan qid qt true atts).outcome = .queued
    ∧ (retryOrQueue db uid interests rid2 chan qid qt true atts).db.active_rooms
        = db.active_rooms := by
  unfold retryOrQueue
  split
  · exact ⟨rfl, rfl⟩
  · cases hq : queryOldest db uid [] with
    | none => exact ⟨rfl, rfl⟩
    | some p2 =>
      simp only [if_true]
      rw [attemptMatch_stolen db uid rid2 p2]
      exact ⟨rfl, rfl⟩

lemma retryOrQueue_attempts (db : DB) (uid : String) (interests : List String)
    (rid2 chan qid : String) (qt : Nat) (s2 : Bool) (atts : List String) :
    (retryOrQueue db uid interests rid2 chan qid qt s2 atts).attempts.length
      ≤ atts.length + 1 := by
  unfold retryOrQueue
  split
  · simp [joinQueue]
  · split
    · simp [joinQueue]
    · split <;> (dsimp only; split <;> simp [joinQueue])

/-- Deferred `setTimeout` callbacks registered by the store actions. -/
inductive TimerAction where
  | resetSkipCount
  | markSent (msgId : String)
  deriving DecidableEq, Repr

/-- A pending timer: absolute firing time plus its action. -/
structure Timer where
  fireAt : Nat
  action : TimerAction
  deriving DecidableEq, Repr

/-- Firing a pending timer against the client state: the 60s skip-decay
timer zeroes `skipCount`; the 300ms send-confirmation timer marks the
message as sent. -/
def fireTimer (s : ClientState) : TimerAction → ClientState
  | .resetSkipCount => { s with skipCount := 0 }
  | .markSent mid =>
      { s with messages := s.messages.map (fun m =>
          if m.id == mid then { m with status := some .sent } else m) }

/-- Network / database side effects issued by the store actions. -/
inductive Effect where
  | broadcastDisconnect (senderId : String)
  | broadcastMessage (text : String) (senderId : String) (replyTo : Option ReplyTarget)
  | broadcastTyping (senderId : String) (isTyping : Bool)
  | broadcastReadReceipt (messageId : String) (readerId : String)
  | dbEndRoom (roomId : String) (endedAt : Nat)
  | dbDeleteQueueEntries (userId : String)
  | removeChannel (name : String)
  deriving DecidableEq, Repr

/-- Effect of each database operation on the shared store: ending a room
updates `ended_at` of the rows with that room id; the queue delete removes
every row of that user; broadcasts and channel teardown do not touch the
store. -/
def applyEffect (db : DB) : Effect → DB
  | .dbEndRoom rid t =>
      { db with active_rooms := db.active_rooms.map (fun r =>
          if r.room_id == rid then { r with ended_at := some t } else r) }
  | .dbDeleteQueueEntries uid =>
      { db with waiting_queue := db.waiting_queue.filter (fun r => !(r.user_id == uid)) }
  | _ => db

/-- Apply a list of effects to the shared store, in order. -/
def applyEffects (db : DB) (effs : List Effect) : DB :=
  effs.foldl applyEffect db

/-- disconnect: increments the skip counter, arms the 30s cooldown at the
10th skip, notifies the partner and tears the channels down, ends the room
record, removes the caller's queue entry, resets the session to idle, and
schedules the 60s skip-count decay timer. -/
def disconnect (s : ClientState) (now : Nat) :
    ClientState × List Effect × List Timer :=
  let newSkipCount := s.skipCount + 1
  let cooldownUntil : Option Nat :=
    if newSkipCount ≥ 10 then some (now + 30000) else none
  let eff1 : List Effect :=
    match s.roomChannel with
    | some ch => [.broadcastDisconnect s.userId, .removeChannel ch]
    | none => []
  let eff2 : List Effect :=
    if !isDemoMode then
      match s.roomId with
      | some rid => [.dbEndRoom rid now]
      | none => []
    else []
  let eff3 : List Effect :=
    if !isDemoMode then [.dbDeleteQueueEntries s.userId] else []
  let eff4 : List Effect :=
    match s.matchChannel with
    | some ch => [.removeChannel ch]
    | none => []
  ({ s with
      status := .idle
      messages := []
      roomId := none
      partnerId := none
      roomChannel := none
      matchChannel := none
      strangerTyping := false
      skipCount := newSkipCount
      skipCooldownUntil := cooldownUntil },
   eff1 ++ eff2 ++ eff3 ++ eff4,
   [⟨now + 60000, .resetSkipCount⟩])

/-- The cooldown guard at the top of findMatch:
`skipCooldownUntil && Date.now() < skipCooldownUntil`. -/
def cooldownActive (s : ClientState) (now : Nat) : Bool :=
  match s.skipCooldownUntil with
  | some c => now < c
  | none => false

/-- The synchronous client-side part of findMatch: under an active cooldown
it returns immediately with no state change (the Bool records whether the
search proceeded); otherwise it clears the previous session and enters
`searching`. -/
def findMatch (s : ClientState) (now : Nat) : ClientState × Bool :=
  if cooldownActive s now then
    (s, false)
  else
    ({ s with
        status := .searching
        messages := []
        roomId := none
        partnerId := none
        strangerTyping := false
        roomChannel := none
        matchChannel := none }, true)

/-- handleMatch: processes a match event `{roomId, partnerId}`. The event is
dropped when the participant is no longer `searching`, and when it names the
participant itself as partner. The room-channel subscription is an awaited
suspension point during which the state may change arbitrarily; `mid` models
that interference, and the post-subscription re-check drops the event if the
state left `searching` meanwhile. Otherwise the participant connects to the
room. -/
def handleMatch (s : ClientState) (mid : ClientState → ClientState)
    (roomId partnerId : String) : ClientState :=
  if s.status ≠ .searching then
    s
  else if partnerId = s.userId then
    s
  else
    let s1 := mid s
    if s1.status ≠ .searching then
      s1
    else
      { s1 with
          status := .connected
          roomId := some roomId
          partnerId := some partnerId
          roomChannel := some ("room:" ++ roomId) }

/-- The cumulative read-receipt update applied to each message: own messages
still `sent` or `sending` become `read`; everything else is untouched. -/
def markOwnSentAsRead (m : Message) : Message :=
  if m.sender = .me ∧ (m.status = some .sent ∨ m.status = some .sending) then
    { m with status := some .read }
  else
    m

/-- The `read_receipt` broadcast handler registered on the room channel
(which closes over that channel's room id): guarded by being connected to
that same room and by the reader not being the local user. -/
def onReadReceipt (s : ClientState) (chanRoomId : String)
    (messageId readerId : String) : ClientState :=
  if s.status ≠ .connected ∨ s.roomId ≠ some chanRoomId then
    s
  else if readerId = s.userId then
    s
  else
    { s with messages := s.messages.map markOwnSentAsRead }

/-- The sender label flip applied to a forwarded `replyTo` reference. -/
def flipSender : Sender → Sender
  | .me => .stranger
  | .stranger => .me

/-- Result type of sendMessage: `{success, error?}`. -/
structure SendResult where
  success : Bool
  error : Option String
  deriving DecidableEq, Repr

/-- sendMessage: policy checks (connected with a room, no blocked word, text
nonempty after trimming) each return a structured failure with no state
change; otherwise the trimmed message is appended locally with sender `me`
and status `sending` (keeping the quoted reply's original label), the
broadcast forwards the reply with the flipped sender label, and the 300ms
sent-confirmation timer is scheduled. -/
def sendMessage (s : ClientState) (now : Nat) (msgId : String) (text : String) :
    ClientState × SendResult × List Effect × List Timer :=
  if s.status ≠ .connected ∨ s.roomId = none then
    (s, ⟨false, some "Not connected"⟩, [], [])
  else if containsProfanity text then
    (s, ⟨false, some "Message contains inappropriate content"⟩, [], [])
  else if trimStr text = "" then
    (s, ⟨false, some "Message is empty"⟩, [], [])
  else
    let newMessage : Message :=
      ⟨msgId, trimStr text, .me, now, some .sending, s.replyingTo⟩
    let effs : List Effect :=
      match s.roomChannel with
      | some _ =>
          [.broadcastMessage (trimStr text) s.userId
            (s.replyingTo.map (fun r => { r with sender := flipSender r.sender }))]
      | none => []
    ({ s with
        messages := s.messages ++ [newMessage]
        isTyping := false
        replyingTo := none },
     ⟨true, none⟩, effs, [⟨now + 300, .markSent msgId⟩])

/-- reset: notifies the partner when a session was live, tears both channels
down, ends the room record, removes the caller's queue entry, and restores
the initial idle state — in particular `skipCount := 0` and
`skipCooldownUntil := null` unconditionally. -/
def reset (s : ClientState) (now : Nat) : ClientState × List Effect :=
  let eff1 : List Effect :=
    match s.roomChannel with
    | some ch =>
        (if s.status = .connected ∨ s.status = .disconnected then
          [.broadcastDisconnect s.userId]
        else []) ++ [.removeChannel ch]
    | none => []
  let eff2 : List Effect :=
    match s.matchChannel with
    | some ch => [.removeChannel ch]
    | none => []
  let eff3 : List Effect :=
    if !isDemoMode then
      match s.roomId with
      | some rid => [.dbEndRoom rid now]
      | none => []
    else []
  let eff4 : List Effect :=
    if !isDemoMode && !(s.userId == "") then [.dbDeleteQueueEntries s.userId] else []
  ({ s with
      status := .idle
      messages := []
      roomId := none
      partnerId := none
      isTyping := false
      strangerTyping := false
      skipCount := 0
      skipCooldownUntil := none
      replyingTo := none
      roomChannel := none
      matchChannel := none },
   eff1 ++ eff2 ++ eff3 ++ eff4)

/-- markMessageAsRead: looks the message up by id; unknown ids and own
messages are ignored; for a partner message with a live room channel the
only action is broadcasting the `read_receipt` — the local state is never
modified. -/
def markMessageAsRead (s : ClientState) (messageId : String) :
    ClientState × List Effect :=
  match s.messages.find? (fun m => m.id == messageId) with
  | none => (s, [])
  | some m =>
    if m.sender ≠ .stranger then
      (s, [])
    else
      match s.roomChannel with
      | some _ => (s, [.broadcastReadReceipt messageId s.userId])
      | none => (s, [])

lemma findMatchCore_both_stolen (db : DB) (uid : String) (interests : List String)
    (rid1 rid2 chan qid : String) (qt : Nat) :
    (findMatchCore db uid interests rid1 rid2 chan qid qt true true).outcome
        = MatchOutcome.queued
    ∧ (findMatchCore db uid interests rid1 rid2 chan qid qt true true).db.active_rooms
        = db.active_rooms := by
  unfold findMatchCore
  cases hq : queryOldest db uid interests with
  | none => exact retryOrQueue_stolen db uid interests rid2 chan qid qt []
  | some p =>
    dsimp only
    rw [if_pos rfl, attemptMatch_stolen db uid rid1 p]
    rw [if_neg (by simp)]
    have h := retryOrQueue_stolen (externalClaim db p.id) uid interests
      rid2 chan qid qt [p.id]
    exact ⟨h.1, by rw [h.2]; rfl⟩

lemma findMatchCore_attempts (db : DB) (uid : String) (interests : List String)
    (rid1 rid2 chan qid : String) (qt : Nat) (s1 s2 : Bool) :
    (findMatchCore db uid interests rid1 rid2 chan qid qt s1 s2).attempts.length
      ≤ 2 := by
  unfold findMatchCore
  cases hq : queryOldest db uid interests with
  | none =>
    have h := retryOrQueue_attempts db uid interests rid2 chan qid qt s2 []
    exact h.trans (by simp)
  | some p =>
    dsimp only
    split
    · split
      · simp
      · exact (retryOrQueue_attempts _ uid interests rid2 chan qid qt s2 [p.id]).trans
          (by simp)
    · split
      · simp
      · exact (retryOrQueue_attempts _ uid interests rid2 chan qid qt s2 [p.id]).trans
          (by simp)

/-- Claim C1: for all concurrent matchers racing on the same WaitingEntry at
most one claim succeeds (the claim being the conditional delete-and-return of
that exact entry by its id, serialized by the store); a matcher whose claims
are stolen re-enters the search path with at most one retry against the
ignore-interests pool before joining the queue, creates no room, and the
outcome is the ordinary `queued` outcome, not an error. -/
theorem C1_claim_exactly_once (db : DB) (eid : String) (n : Nat)
    (uid : String) (interests : List String) (rid1 rid2 chan qid : String)
    (qt : Nat) (s1 s2 : Bool) :
    (claimRace db eid n).count true ≤ 1
    ∧ (findMatchCore db uid interests rid1 rid2 chan qid qt true true).outcome
        = MatchOutcome.queued
    ∧ (findMatchCore db uid interests rid1 rid2 chan qid qt true true).db.active_rooms
        = db.active_rooms
    ∧ (findMatchCore db uid interests rid1 rid2 chan qid qt s1 s2).attempts.length
        ≤ 2 :=
  ⟨claimRace_count_le_one db eid n,
   (findMatchCore_both_stolen db uid interests rid1 rid2 chan qid qt).1,
   (findMatchCore_both_stolen db uid interests rid1 rid2 chan qid qt).2,
   findMatchCore_attempts db uid interests rid1 rid2 chan qid qt s1 s2⟩

/-- A concrete connected session used to settle claim C2. -/
def sC2 : ClientState :=
  { status := .connected
    messages := []
    roomId := some "room_1"
    partnerId := some "u2"
    userId := "u1"
    isTyping := false
    strangerTyping := false
    interests := []
    skipCount := 0
    skipCooldownUntil := none
    replyingTo := none
    roomChannel := some "room:room_1"
    matchChannel := none }

/-- Claim C2 counterexample: calling disconnect twice in a row from a
connected session leaves the skip counter at 2, not at the value 1 reached
after the first call alone — the second call is not a no-op on the skip
counter. -/
theorem C2_counterexample :
    ¬ ((disconnect (disconnect sC2 1000).1 2000).1.skipCount
        = (disconnect sC2 1000).1.skipCount) := by
  decide

/-- Claim C2 (amended): a second disconnect in a row touches neither the
room record nor the queue nor the relay (it issues no room update, no
disconnect broadcast and no channel teardown — its only store operation is
the queue delete, which is a no-op on a store that no longer holds an entry
for the user) — but it increments the skip counter again: the counter after
two calls is the counter after the first call plus one. -/
theorem C2_second_disconnect (s : ClientState) (t1 t2 : Nat) :
    (disconnect (disconnect s t1).1 t2).1.skipCount
        = (disconnect s t1).1.skipCount + 1
    ∧ (disconnect (disconnect s t1).1 t2).2.1
        = [Effect.dbDeleteQueueEntries s.userId]
    ∧ (∀ db : DB, (∀ r ∈ db.waiting_queue, r.user_id ≠ s.userId) →
        applyEffects db (disconnect (disconnect s t1).1 t2).2.1 = db) := by
  refine ⟨?_, ?_, ?_⟩
  · simp [disconnect]
  · simp [disconnect, isDemoMode]
  · intro db h
    have hfix : db.waiting_queue.filter (fun r => !(r.user_id == s.userId))
        = db.waiting_queue := by
      apply List.filter_eq_self.mpr
      intro a ha
      simpa using h a ha
    simp [disconnect, isDemoMode, applyEffects, applyEffect, hfix]

/-- Witness for the amended claim C2 at a concrete session and store. -/
theorem C2_second_disconnect_witness :
    applyEffects ⟨[], []⟩ (disconnect (disconnect sC2 1000).1 2000).2.1 = ⟨[], []⟩ :=
  (C2_second_disconnect sC2 1000 2000).2.2 ⟨[], []⟩ (by intro r hr; simp at hr)

/-- A concrete idle session under an active skip cooldown, for claim C3. -/
def sC3 : ClientState :=
  { status := .idle
    messages := []
    roomId := none
    partnerId := none
    userId := "u1"
    isTyping := false
    strangerTyping := false
    interests := []
    skipCount := 10
    skipCooldownUntil := some 100000
    replyingTo := none
    roomChannel := none
    matchChannel := none }

/-- Claim C3: every disconnect increments skipCount; from the 10th skip on a
30-second cooldown timestamp is armed; while the cooldown timestamp has not
passed findMatch returns immediately with no state change; and every
disconnect schedules the 60-second decay timer whose firing returns the skip
counter to zero, whether or not a cooldown was triggered. -/
theorem C3_skip_rate_limiter (s : ClientState) (now : Nat) :
    (disconnect s now).1.skipCount = s.skipCount + 1
    ∧ (disconnect s now).1.skipCooldownUntil
        = (if s.skipCount + 1 ≥ 10 then some (now + 30000) else none)
    ∧ (cooldownActive s now = true → findMatch s now = (s, false))
    ∧ (disconnect s now).2.2 = [⟨now + 60000, TimerAction.resetSkipCount⟩]
    ∧ (∀ s' : ClientState, (fireTimer s' TimerAction.resetSkipCount).skipCount = 0) := by
  refine ⟨by simp [disconnect], by simp [disconnect], ?_, by simp [disconnect], ?_⟩
  · intro h
    simp [findMatch, h]
  · intro s'
    simp [fireTimer]

/-- Witness for claim C3: under the concrete active cooldown, findMatch
returns immediately with no state change. -/
theorem C3_skip_rate_limiter_witness : findMatch sC3 50 = (sC3, false) :=
  (C3_skip_rate_limiter sC3 50).2.2.1 (by decide)

/-- A concrete connected (hence no longer searching) session for claim C4. -/
def sC4 : ClientState :=
  { status := .connected
    messages := []
    roomId := some "room_0"
    partnerId := some "u3"
    userId := "u1"
    isTyping := false
    strangerTyping := false
    interests := []
    skipCount := 0
    skipCooldownUntil := none
    replyingTo := none
    roomChannel := some "room:room_0"
    matchChannel := none }

/-- The same session while searching, for the second part of claim C4. -/
def sC4b : ClientState :=
  { sC4 with status := .searching, roomId := none, partnerId := none, roomChannel := none }

/-- Concurrent interference during the room-channel subscription that
cancels the search, for the witness of claim C4. -/
def midC4 (s : ClientState) : ClientState :=
  { s with status := .idle }

/-- Claim C4: a match event processed while the participant is not
`searching` is discarded with no state change; and a match event that passes
the entry checks but finds the state changed away from `searching` during
the room-channel subscription is discarded as well, altering nothing beyond
what the concurrent change itself did. -/
theorem C4_stale_match_rejected (s : ClientState) (mid : ClientState → ClientState)
    (rid pid : String) :
    (s.status ≠ .searching → handleMatch s mid rid pid = s)
    ∧ (s.status = .searching → pid ≠ s.userId → (mid s).status ≠ .searching →
        handleMatch s mid rid pid = mid s) := by
  constructor
  · intro h
    simp [handleMatch, h]
  · intro h1 h2 h3
    simp [handleMatch, h1, h2, h3]

/-- Witness for claim C4 at concrete sessions: a match event against a
connected session is a no-op, and a match event whose subscription window
saw the search cancelled leaves exactly the cancelled state. -/
theorem C4_stale_match_rejected_witness :
    handleMatch sC4 id "room_9" "u9" = sC4
    ∧ handleMatch sC4b midC4 "room_9" "u9" = midC4 sC4b :=
  ⟨(C4_stale_match_rejected sC4 id "room_9" "u9").1 (by decide),
   (C4_stale_match_rejected sC4b midC4 "room_9" "u9").2 (by decide) (by decide) (by decide)⟩

/-- A self-connection: connected with the partner id equal to the own id. -/
abbrev selfConnected (t : ClientState) : Prop :=
  t.status = .connected ∧ t.partnerId = some t.userId

/-- Claim C5: a match event naming the participant itself as partner is
discarded outright (the state is returned unchanged), and processing a match
event never produces a self-connection unless the state already was one or
the concurrent interference introduced one. -/
theorem C5_no_self_match (s : ClientState) (mid : ClientState → ClientState)
    (rid : String) :
    handleMatch s mid rid s.userId = s
    ∧ (∀ pid : String, (mid s).userId = s.userId → ¬ selfConnected s →
        ¬ selfConnected (mid s) → ¬ selfConnected (handleMatch s mid rid pid)) := by
  constructor
  · by_cases h : s.status = .searching
    · simp [handleMatch, h]
    · simp [handleMatch, h]
  · intro pid hu hs hm
    unfold handleMatch
    split
    · exact hs
    · split
      · exact hs
      · rename_i hns hne
        dsimp only
        split
        · exact hm
        · intro hc
          have hp := hc.2
          simp only [Option.some.injEq] at hp
          exact hne (hp.trans hu)

/-- A concrete searching session for the witness of claim C5. -/
def sC5 : ClientState :=
  { status := .searching
    messages := []
    roomId := none
    partnerId := none
    userId := "u1"
    isTyping := false
    strangerTyping := false
    interests := []
    skipCount := 0
    skipCooldownUntil := none
    replyingTo := none
    roomChannel := none
    matchChannel := none }

/-- Witness for claim C5: the self-match event at a concrete searching
session is dropped, and a genuine match event yields no self-connection. -/
theorem C5_no_self_match_witness :
    handleMatch sC5 id "room_9" sC5.userId = sC5
    ∧ ¬ selfConnected (handleMatch sC5 id "room_9" "u2") :=
  ⟨(C5_no_self_match sC5 id "room_9").1,
   (C5_no_self_match sC5 id "room_9").2 "u2" (by decide) (by decide) (by decide)⟩

/-- A concrete connected session with a mixed message history, for the
witness of claim C6. -/
def sC6 : ClientState :=
  { status := .connected
    messages :=
      [⟨"m1", "hello", .me, 10, some .sent, none⟩,
       ⟨"m2", "there", .me, 20, some .sending, none⟩,
       ⟨"m3", "hi", .stranger, 30, none, none⟩,
       ⟨"m4", "old", .me, 5, some .read, none⟩]
    roomId := some "room_1"
    partnerId := some "u2"
    userId := "u1"
    isTyping := false
    strangerTyping := false
    interests := []
    skipCount := 0
    skipCooldownUntil := none
    replyingTo := none
    roomChannel := some "room:room_1"
    matchChannel := none }

/-- Claim C6: a read_receipt from the partner, received while connected to
the channel's room, rewrites exactly the own messages previously `sent` or
`sending` to `read` and leaves every other message (and every other field)
unchanged; the update is pointwise over the list present at receipt time, so
messages appended afterwards are untouched until a further receipt arrives. -/
theorem C6_read_receipt_cumulative (s : ClientState) (rid msgId reader : String) :
    (s.status = .connected → s.roomId = some rid → reader ≠ s.userId →
        onReadReceipt s rid msgId reader
          = { s with messages := s.messages.map markOwnSentAsRead })
    ∧ (∀ m : Message, m.sender = .me →
        (m.status = some .sent ∨ m.status = some .sending) →
        markOwnSentAsRead m = { m with status := some .read })
    ∧ (∀ m : Message,
        ¬ (m.sender = .me ∧ (m.status = some .sent ∨ m.status = some .sending)) →
        markOwnSentAsRead m = m)
    ∧ (∀ ms more : List Message,
        (ms ++ more).map markOwnSentAsRead
          = ms.map markOwnSentAsRead ++ more.map markOwnSentAsRead) := by
  refine ⟨?_, ?_, ?_, ?_⟩
  · intro h1 h2 h3
    simp [onReadReceipt, h1, h2, h3]
  · intro m h1 h2
    simp [markOwnSentAsRead, h1, h2]
  · intro m h
    simp only [markOwnSentAsRead, if_neg h]
  · intro ms more
    simp

/-- Witness for claim C6: at the concrete session, the receipt marks the
`sent` and `sending` own messages as `read` and leaves the partner message
and the already-read message alone. -/
theorem C6_read_receipt_cumulative_witness :
    onReadReceipt sC6 "room_1" "m9" "u2"
      = { sC6 with messages :=
          [⟨"m1", "hello", .me, 10, some .read, none⟩,
           ⟨"m2", "there", .me, 20, some .read, none⟩,
           ⟨"m3", "hi", .stranger, 30, none, none⟩,
           ⟨"m4", "old", .me, 5, some .read, none⟩] } := by
  rw [(C6_read_receipt_cumulative sC6 "room_1" "m9" "u2").1
    (by decide) (by decide) (by decide)]
  decide

/-- A concrete connected session in the middle of replying to an own
message, for the witness of claim C7. -/
def sC7 : ClientState :=
  { status := .connected
    messages := [⟨"m1", "hi", .me, 10, some .sent, none⟩]
    roomId := some "room_1"
    partnerId := some "u2"
    userId := "u1"
    isTyping := false
    strangerTyping := false
    interests := []
    skipCount := 0
    skipCooldownUntil := none
    replyingTo := some ⟨"m1", "hi", .me⟩
    roomChannel := some "room:room_1"
    matchChannel := none }

/-- Claim C7: when sendMessage broadcasts a reply, the forwarded replyTo
carries the flipped sender label (me becomes stranger and stranger becomes
me) while the locally stored copy keeps the original label. -/
theorem C7_reply_label_flip (s : ClientState) (now : Nat) (msgId text : String)
    (r : ReplyTarget) :
    s.status = .connected → s.roomId ≠ none → s.roomChannel ≠ none →
    s.replyingTo = some r → containsProfanity text = false → trimStr text ≠ "" →
    (sendMessage s now msgId text).2.2.1
        = [Effect.broadcastMessage (trimStr text) s.userId
            (some { r with sender := flipSender r.sender })]
    ∧ (sendMessage s now msgId text).1.messages
        = s.messages ++ [⟨msgId, trimStr text, .me, now, some .sending, some r⟩]
    ∧ flipSender .me = .stranger ∧ flipSender .stranger = .me := by
  intro h1 h2 h3 h4 h5 h6
  cases hch : s.roomChannel with
  | none => exact absurd hch h3
  | some ch =>
    refine ⟨?_, ?_, rfl, rfl⟩
    · simp [sendMessage, h1, h2, h4, h5, h6, hch]
    · simp [sendMessage, h1, h2, h4, h5, h6]

/-- Witness for claim C7: replying "ok" to the own message "hi" broadcasts
the quote labelled stranger while the local copy keeps the label me. -/
theorem C7_reply_label_flip_witness :
    (sendMessage sC7 40 "m2" "ok").2.2.1
        = [Effect.broadcastMessage (trimStr "ok") "u1" (some ⟨"m1", "hi", .stranger⟩)]
    ∧ (sendMessage sC7 40 "m2" "ok").1.messages
        = sC7.messages
            ++ [⟨"m2", trimStr "ok", .me, 40, some .sending, some ⟨"m1", "hi", .me⟩⟩]
    ∧ flipSender .me = .stranger ∧ flipSender .stranger = .me :=
  C7_reply_label_flip sC7 40 "m2" "ok" ⟨"m1", "hi", .me⟩
    (by decide) (by decide) (by decide) (by decide) (by decide) (by decide)

/-- Claim C8: sendMessage is a total function returning a structured
result, never an exception: it fails with a structured error and the whole
state unchanged when the participant is not connected or has no room, when
the text contains a blocked word, and when the text trims to empty; in every
remaining case it succeeds and appends exactly one message with sender me
and status sending. -/
theorem C8_send_message_policy (s : ClientState) (now : Nat) (msgId text : String) :
    ((s.status ≠ .connected ∨ s.roomId = none) →
        sendMessage s now msgId text
          = (s, ⟨false, some "Not connected"⟩, [], []))
    ∧ (¬ (s.status ≠ .connected ∨ s.roomId = none) → containsProfanity text = true →
        sendMessage s now msgId text
          = (s, ⟨false, some "Message contains inappropriate content"⟩, [], []))
    ∧ (¬ (s.status ≠ .connected ∨ s.roomId = none) → containsProfanity text = false →
        trimStr text = "" →
        sendMessage s now msgId text = (s, ⟨false, some "Message is empty"⟩, [], []))
    ∧ (¬ (s.status ≠ .connected ∨ s.roomId = none) → containsProfanity text = false →
        trimStr text ≠ "" →
        (sendMessage s now msgId text).2.1 = ⟨true, none⟩
        ∧ (sendMessage s now msgId text).1.messages
            = s.messages ++ [⟨msgId, trimStr text, .me, now, some .sending, s.replyingTo⟩])
    ∧ ((sendMessage s now msgId text).2.1.success = false →
        (sendMessage s now msgId text).1 = s) := by
  refine ⟨?_, ?_, ?_, ?_, ?_⟩
  · intro h1
    unfold sendMessage
    rw [if_pos h1]
  · intro h1 h2
    unfold sendMessage
    rw [if_neg h1, if_pos h2]
  · intro h1 h2 h3
    unfold sendMessage
    rw [if_neg h1, if_neg (by simp [h2]), if_pos h3]
  · intro h1 h2 h3
    unfold sendMessage
    rw [if_neg h1, if_neg (by simp [h2]), if_neg h3]
    exact ⟨rfl, rfl⟩
  · intro hfail
    unfold sendMessage at hfail ⊢
    by_cases h1 : s.status ≠ .connected ∨ s.roomId = none
    · rw [if_pos h1]
    · rw [if_neg h1] at hfail ⊢
      by_cases h2 : containsProfanity text = true
      · rw [if_pos h2]
      · rw [if_neg h2] at hfail ⊢
        by_cases h3 : trimStr text = ""
        · rw [if_pos h3]
        · rw [if_neg h3] at hfail
          simp at hfail

/-- A concrete connected session for the witness of claim C8. -/
def sC8 : ClientState :=
  { status := .connected
    messages := []
    roomId := some "room_1"
    partnerId := some "u2"
    userId := "u1"
    isTyping := false
    strangerTyping := false
    interests := []
    skipCount := 0
    skipCooldownUntil := none
    replyingTo := none
    roomChannel := some "room:room_1"
    matchChannel := none }

/-- An idle session (not connected) for the witness of claim C8. -/
def sC8b : ClientState :=
  { sC8 with status := .idle, roomId := none, roomChannel := none }

/-- Witness for claim C8 at concrete inputs: the not-connected failure, the
blocked-word failure, the empty-after-trim failure (each leaving the state
unchanged), and a successful send appending one `sending` message. -/
theorem C8_send_message_policy_witness :
    sendMessage sC8b 40 "m1" "hello"
        = (sC8b, ⟨false, some "Not connected"⟩, [], [])
    ∧ sendMessage sC8 40 "m1" "buy SPAM now"
        = (sC8, ⟨false, some "Message contains inappropriate content"⟩, [], [])
    ∧ sendMessage sC8 40 "m1" "   "
        = (sC8, ⟨false, some "Message is empty"⟩, [], [])
    ∧ (sendMessage sC8 40 "m1" " hello ").2.1 = ⟨true, none⟩
    ∧ (sendMessage sC8 40 "m1" " hello ").1.messages
        = sC8.messages
            ++ [⟨"m1", trimStr " hello ", .me, 40, some .sending, sC8.replyingTo⟩] :=
  ⟨(C8_send_message_policy sC8b 40 "m1" "hello").1 (by decide),
   (C8_send_message_policy sC8 40 "m1" "buy SPAM now").2.1 (by decide) (by decide),
   (C8_send_message_policy sC8 40 "m1" "   ").2.2.1 (by decide) (by decide) (by decide),
   ((C8_send_message_policy sC8 40 "m1" " hello ").2.2.2.1 (by decide) (by decide)
     (by decide)).1,
   ((C8_send_message_policy sC8 40 "m1" " hello ").2.2.2.1 (by decide) (by decide)
     (by decide)).2⟩

/-- Claim C9: reset unconditionally clears the skip counter and the skip
cooldown, so right after a reset no cooldown is active and findMatch
proceeds into searching. -/
theorem C9_reset_clears_cooldown (s : ClientState) (now now2 : Nat) :
    (reset s now).1.skipCount = 0
    ∧ (reset s now).1.skipCooldownUntil = none
    ∧ cooldownActive (reset s now).1 now2 = false
    ∧ (findMatch (reset s now).1 now2).2 = true
    ∧ (findMatch (reset s now).1 now2).1.status = .searching := by
  refine ⟨by simp [reset], by simp [reset], ?_, ?_, ?_⟩
  · simp [cooldownActive, reset]
  · simp [findMatch, cooldownActive, reset]
  · simp [findMatch, cooldownActive, reset]

/-- Claim C10: markMessageAsRead never mutates the local state; with no
message of the given id, or a message not sent by the stranger, or no live
room channel it emits nothing, and otherwise its sole effect is the
read_receipt broadcast. -/
theorem C10_mark_read_frame (s : ClientState) (messageId : String) :
    (markMessageAsRead s messageId).1 = s
    ∧ (s.messages.find? (fun m => m.id == messageId) = none →
        (markMessageAsRead s messageId).2 = [])
    ∧ (∀ m : Message, s.messages.find? (fun m2 => m2.id == messageId) = some m →
        m.sender ≠ .stranger → (markMessageAsRead s messageId).2 = [])
    ∧ (∀ m : Message, s.messages.find? (fun m2 => m2.id == messageId) = some m →
        m.sender = .stranger → s.roomChannel = none →
        (markMessageAsRead s messageId).2 = [])
    ∧ (∀ (m : Message) (ch : String),
        s.messages.find? (fun m2 => m2.id == messageId) = some m →
        m.sender = .stranger → s.roomChannel = some ch →
        (markMessageAsRead s messageId).2
          = [Effect.broadcastReadReceipt messageId s.userId]) := by
  refine ⟨?_, ?_, ?_, ?_, ?_⟩
  · unfold markMessageAsRead
    cases hf : s.messages.find? (fun m => m.id == messageId) with
    | none => rfl
    | some m =>
      dsimp only
      by_cases hs : m.sender ≠ Sender.stranger
      · rw [if_pos hs]
      · rw [if_neg hs]
        cases s.roomChannel <;> rfl
  · intro h
    simp [markMessageAsRead, h]
  · intro m h1 h2
    simp [markMessageAsRead, h1, h2]
  · intro m h1 h2 h3
    simp [markMessageAsRead, h1, h2, h3]
  · intro m ch h1 h2 h3
    simp [markMessageAsRead, h1, h2, h3]

/-- A concrete connected session holding a stranger message, for the
witness of claim C10. -/
def sC10 : ClientState :=
  { status := .connected
    messages := [⟨"m1", "hi", .stranger, 10, none, none⟩]
    roomId := some "room_1"
    partnerId := some "u2"
    userId := "u1"
    isTyping := false
    strangerTyping := false
    interests := []
    skipCount := 0
    skipCooldownUntil := none
    replyingTo := none
    roomChannel := some "room:room_1"
    matchChannel := none }

/-- Witness for claim C10: at the concrete session, marking the stranger
message as read leaves the state untouched and emits exactly the
read_receipt broadcast. -/
theorem C10_mark_read_frame_witness :
    (markMessageAsRead sC10 "m1").1 = sC10
    ∧ (markMessageAsRead sC10 "m1").2
        = [Effect.broadcastReadReceipt "m1" sC10.userId] :=
  ⟨(C10_mark_read_frame sC10 "m1").1,
   (C10_mark_read_frame sC10 "m1").2.2.2.2 ⟨"m1", "hi", .stranger, 10, none, none⟩
     "room:room_1" (by decide) (by decide) (by decide)⟩
